import Mathlib

/-!
Verification of the clip-selection pipeline of `Clipco.py`
(`analyze_for_clips`, `generate_short_clips`).

Shallow embedding conventions:
* Python floats are modelled as exact rationals (`ℚ`).
* `analyze_for_clips(video_path, subtitles_path)` decodes the video into a
  flat list of audio samples and reads the subtitle file into a string; the
  embedding takes those data directly: the sample list, the video duration
  (`clip.duration`), and the optional subtitle text (`Option (List Char)`,
  `none` when `subtitles_path` is falsy).
* A Python run that raises is modelled as `Except.error`; a normal return as
  `Except.ok`.
-/

/-- Errors of the detector run.  `zeroDivisionError` is what Python raises at
`sum(volumes) / len(volumes)` (line 30) when the sample list is empty; the
code has no guard.  `emptyAudioError` is the error class the specification
prescribes for that case; it appears nowhere in the code and is included only
so that statements can distinguish the two. -/
inductive PyErr where
  | zeroDivisionError : PyErr
  | emptyAudioError : PyErr
deriving DecidableEq, Repr

/-- Python's `abs` on a float, as used in
`volumes = [abs(sample) for sample in ...]` (line 29). -/
def pyAbs (q : ℚ) : ℚ := if q < 0 then -q else q

/-- Line 29: `volumes = [abs(sample) for sample in audio.to_soundarray(fps=44100).flatten()]`. -/
def volumesOf (samples : List ℚ) : List ℚ := samples.map pyAbs

/-- Line 30: `avg_volume = sum(volumes) / len(volumes)` (the division itself;
the embedding of the surrounding run guards it with the `ZeroDivisionError`
branch in `analyze_for_clips`). -/
def avg_volume (volumes : List ℚ) : ℚ := volumes.sum / (volumes.length : ℚ)

/-- Line 31: `peaks = [i for i, v in enumerate(volumes) if v > avg_volume * 1.5]`.
The entries are raw indices into the flattened sample array. -/
def peaksOf (volumes : List ℚ) : List ℕ :=
  (volumes.enum.filter (fun iv => avg_volume volumes * 1.5 < iv.2)).map (fun iv => iv.1)

/-- Line 33: `engaging_keywords = ["amazing", "shocking", "epic", "must-see", "wow"]`. -/
def engaging_keywords : List (List Char) :=
  ["amazing".data, "shocking".data, "epic".data, "must-see".data, "wow".data]

/-- Case-insensitive character comparison, modelling `re.IGNORECASE`. -/
def lowerEq (a b : Char) : Bool := a.toLower == b.toLower

/-- `kw` matches at the head of `s`, ignoring case. -/
def matchesAt : List Char → List Char → Bool
  | [], _ => true
  | _ :: _, [] => false
  | a :: ka, b :: sb => lowerEq a b && matchesAt ka sb

/-- Start positions of the non-overlapping, left-to-right, case-insensitive
occurrences of `kw` in `s`, offset by `pos`: the matches produced by
`re.finditer(keyword, subs, re.IGNORECASE)` (line 38). -/
def findMatches (kw : List Char) : List Char → ℕ → List ℕ
  | [], _ => []
  | c :: rest, pos =>
    if matchesAt kw (c :: rest) then
      pos :: findMatches kw (rest.drop (kw.length - 1)) (pos + kw.length)
    else
      findMatches kw rest (pos + 1)
termination_by s _ => s.length
decreasing_by
  · simp only [List.length_cons, List.length_drop]
    omega
  · simp only [List.length_cons]
    omega

/-- Lines 36-42: for each keyword, for each case-insensitive match, append
`match.start() / len(subs) * clip.duration`. -/
def engaging_times (subs : List Char) (duration : ℚ) : List ℚ :=
  (engaging_keywords.map (fun kw =>
    (findMatches kw subs 0).map (fun p => (p : ℚ) / (subs.length : ℚ) * duration))).flatten

/-- Insert `x` into an ascending duplicate-free list, keeping it ascending and
duplicate-free. -/
def insertSD (x : ℚ) : List ℚ → List ℚ
  | [] => [x]
  | y :: ys =>
    if x < y then x :: y :: ys
    else if x = y then y :: ys
    else y :: insertSD x ys

/-- Python's `sorted(set(l))` (line 44): the ascending list of the distinct
elements of `l`. -/
def sortedDedup : List ℚ → List ℚ
  | [] => []
  | x :: xs => insertSD x (sortedDedup xs)

/-- Line 44: `all_times = sorted(set(peaks[:len(peaks)//100] + engaging_times))`.
Peak indices enter the merge as bare numbers, exactly as in the code (no
division by the 44100 Hz sample rate). -/
def all_times_of (samples : List ℚ) (duration : ℚ) (transcript : Option (List Char)) : List ℚ :=
  sortedDedup
    (((peaksOf (volumesOf samples)).take ((peaksOf (volumesOf samples)).length / 100)).map
        (fun i => (i : ℚ)) ++
      (match transcript with
       | some subs => engaging_times subs duration
       | none => []))

/-- Line 45: `clip_starts = all_times[:5] if len(all_times) >= 5 else all_times`. -/
def select_clip_starts (all_times : List ℚ) : List ℚ :=
  if 5 ≤ all_times.length then all_times.take 5 else all_times

/-- The unconditional prefix `all_times[:5]` of line 45's conditional. -/
def take_five (l : List ℚ) : List ℚ := l.take 5

/-- Lines 27-46: `analyze_for_clips`.  With an empty sample list Python raises
`ZeroDivisionError` at line 30 before anything else runs; otherwise the
detector returns `select_clip_starts` of the merged candidate list. -/
def analyze_for_clips (samples : List ℚ) (duration : ℚ)
    (transcript : Option (List Char)) : Except PyErr (List ℚ) :=
  if (volumesOf samples).length = 0 then
    .error PyErr.zeroDivisionError
  else
    .ok (select_clip_starts (all_times_of samples duration transcript))

/-- Line 55: `end = min(start + 30, full_clip.duration)`. -/
def clip_end (start duration : ℚ) : ℚ := min (start + 30) duration

/-- Lines 53-56: the `[start, end)` windows that `generate_short_clips` cuts,
one per entry of `clip_starts`, in input order.  The loop performs no validity
check on `start` before computing the window and extracting the sub-clip. -/
def clip_specs (duration : ℚ) (clip_starts : List ℚ) : List (ℚ × ℚ) :=
  clip_starts.map (fun start => (start, clip_end start duration))

/-- A file path of the renderer's file-system model: a directory identifier
and the 1-indexed clip number, standing for `<dir>/short_<n>.mp4` (line 59). -/
structure ClipPath where
  dir : ℕ
  index : ℕ
deriving DecidableEq

/-- Result of the file-system effect model of `generate_short_clips`:
the path list the function returns, and the set (as a list) of files that
exist once the function has returned. -/
structure RenderFx where
  returned : List ClipPath
  existingAfter : List ClipPath
deriving DecidableEq

/-- Lines 50-63: `generate_short_clips` file-system effects.
`with tempfile.TemporaryDirectory() as temp_dir` (line 51) opens a fresh
directory `d`; each loop iteration writes `short_<i+1>.mp4` into `d`
(lines 59-61) and appends the path to `clip_files`; `return clip_files`
(line 63) sits inside the `with` block, so the context manager deletes the
whole directory tree while the function returns.  `fs0` is the list of files
existing outside `d` before the call. -/
def generate_short_clips (d : ℕ) (fs0 : List ClipPath) (clip_starts : List ℚ) : RenderFx :=
  let outs := (List.range clip_starts.length).map (fun i => ClipPath.mk d (i + 1))
  { returned := outs
    existingAfter := (fs0 ++ outs).filter (fun p => p.dir ≠ d) }

/-- 151 audio samples: 51 silent, then 100 of magnitude 1.  Mean magnitude is
100/151, so the 100 loud samples (indices 51-150) all exceed 1.5× the mean and
are peaks; the throttle keeps `peaks[:100//100] = [51]`. -/
def c1_samples : List ℚ := List.replicate 51 0 ++ List.replicate 100 1

/-- 10 samples of magnitude 1 with the last 10× the rest, the audio of the
specification's first scenario. -/
def c3_samples : List ℚ := List.replicate 9 1 ++ [10]

/-- The transcript of the specification's keyword scenario.  Its actual length
is 33 characters. -/
def c7_subs : List Char := "this is amazing and also shocking".data

/- ------------------------------------------------------------------ -/
/- Helper lemmas                                                       -/
/- ------------------------------------------------------------------ -/

theorem mem_insertSD (x a : ℚ) (l : List ℚ) :
    a ∈ insertSD x l ↔ a = x ∨ a ∈ l := by
  induction l with
  | nil => simp [insertSD]
  | cons y ys ih =>
    simp only [insertSD]
    split
    · simp [List.mem_cons]
    · split
      · next h1 h2 =>
        subst h2
        simp only [List.mem_cons]
        tauto
      · simp only [List.mem_cons, ih]
        tauto

theorem sorted_insertSD (x : ℚ) (l : List ℚ) (h : l.Sorted (· < ·)) :
    (insertSD x l).Sorted (· < ·) := by
  induction l with
  | nil => simp [insertSD]
  | cons y ys ih =>
    rw [List.sorted_cons] at h
    obtain ⟨hy, hys⟩ := h
    simp only [insertSD]
    split
    · next hlt =>
      rw [List.sorted_cons]
      refine ⟨?_, List.sorted_cons.2 ⟨hy, hys⟩⟩
      intro b hb
      rcases List.mem_cons.1 hb with rfl | hb
      · exact hlt
      · exact lt_trans hlt (hy b hb)
    · next h1 =>
      split
      · next h2 => exact List.sorted_cons.2 ⟨hy, hys⟩
      · next h2 =>
        rw [List.sorted_cons]
        refine ⟨?_, ih hys⟩
        intro b hb
        rcases (mem_insertSD x b ys).1 hb with rfl | hb
        · exact lt_of_le_of_ne (not_lt.1 h1) (Ne.symm h2)
        · exact hy b hb

theorem sortedDedup_sorted (l : List ℚ) : (sortedDedup l).Sorted (· < ·) := by
  induction l with
  | nil => simp [sortedDedup]
  | cons x xs ih => exact sorted_insertSD x _ ih

theorem all_times_of_sorted (samples : List ℚ) (duration : ℚ)
    (transcript : Option (List Char)) :
    (all_times_of samples duration transcript).Sorted (· < ·) :=
  sortedDedup_sorted _

theorem select_clip_starts_eq_take (l : List ℚ) :
    select_clip_starts l = l.take 5 := by
  unfold select_clip_starts
  split
  · rfl
  · next h => exact (List.take_of_length_le (by omega)).symm

theorem analyze_ok {samples : List ℚ} {duration : ℚ} {transcript : Option (List Char)}
    {out : List ℚ} (h : analyze_for_clips samples duration transcript = .ok out) :
    out = (all_times_of samples duration transcript).take 5 := by
  unfold analyze_for_clips at h
  split at h
  · simp at h
  · rw [select_clip_starts_eq_take] at h
    exact (Except.ok.inj h).symm

/- ------------------------------------------------------------------ -/
/- Claim theorems                                                      -/
/- ------------------------------------------------------------------ -/

set_option maxRecDepth 40000

/-- C1: the claim says every candidate offset returned by `analyze_for_clips`
satisfies `0 ≤ offset < duration`, with peak-derived entries converted from
sample indices to seconds by dividing by the 44100 Hz sample rate before the
merge.  The code (line 44) merges the raw sample indices unconverted: on 151
samples (duration 151/44100 s) with 100 peaks, the detector returns the bare
index 51, which is not below the duration. -/
theorem c1_peak_offsets_not_converted :
    analyze_for_clips c1_samples (151 / 44100) none = .ok [51] ∧
    ¬ ((51 : ℚ) < 151 / 44100) := by
  constructor
  · norm_num [c1_samples, analyze_for_clips, all_times_of, select_clip_starts, sortedDedup,
      insertSD, peaksOf, avg_volume, volumesOf, pyAbs, List.replicate, List.enum,
      List.enumFrom, List.filter]
  · norm_num

/-- C2: the claim says detection on zero samples fails with `EmptyAudioError`
and never with an unrelated division error.  The code has no guard: line 30
(`avg_volume = sum(volumes) / len(volumes)`) raises `ZeroDivisionError` on an
empty sample list, and no `EmptyAudioError` exists anywhere in the code. -/
theorem c2_empty_audio_raises_division_error :
    analyze_for_clips [] 1 none = .error PyErr.zeroDivisionError ∧
    PyErr.zeroDivisionError ≠ PyErr.emptyAudioError := by
  constructor
  · norm_num [analyze_for_clips, volumesOf]
  · decide

/-- C3 counterexample: on 10 samples with one sample 10× the rest, duration
100 and no transcript, the detector does not return a single-element
sequence: the throttle `peaks[:len(peaks)//100] = peaks[:0]` discards the
sole peak and the result is empty. -/
theorem c3_counterexample :
    ¬ ∃ t : ℚ, analyze_for_clips c3_samples 100 none = .ok [t] := by
  have h : analyze_for_clips c3_samples 100 none = .ok [] := by
    norm_num [c3_samples, analyze_for_clips, all_times_of, select_clip_starts, sortedDedup,
      insertSD, peaksOf, avg_volume, volumesOf, pyAbs, List.replicate, List.enum,
      List.enumFrom, List.filter]
  rintro ⟨t, ht⟩
  rw [h] at ht
  simp at ht

/-- C3 (amended): for 10 uniform-magnitude samples with one sample 10× the
rest, the baseline is 1.9× the base magnitude and exactly one sample (index 9)
is a peak; but with duration 100 and no transcript `detect` returns the empty
sequence, because the throttle `peaks[:len(peaks)//100]` keeps
`floor(1/100) = 0` entries. -/
theorem c3_single_peak_throttled_away :
    avg_volume (volumesOf c3_samples) = 19 / 10 ∧
    peaksOf (volumesOf c3_samples) = [9] ∧
    analyze_for_clips c3_samples 100 none = .ok [] := by
  refine ⟨?_, ?_, ?_⟩
  · norm_num [c3_samples, avg_volume, volumesOf, pyAbs, List.replicate]
  · norm_num [c3_samples, peaksOf, avg_volume, volumesOf, pyAbs, List.replicate, List.enum,
      List.enumFrom, List.filter]
  · norm_num [c3_samples, analyze_for_clips, all_times_of, select_clip_starts, sortedDedup,
      insertSD, peaksOf, avg_volume, volumesOf, pyAbs, List.replicate, List.enum,
      List.enumFrom, List.filter]

/-- C4: every offset sequence returned by `analyze_for_clips` has length at
most 5, is strictly ascending, has no duplicates, and is the 5-entry prefix of
the sorted, deduplicated merge of peak-derived and keyword-derived offsets
(all of it when fewer than 5 exist). -/
theorem c4_output_sorted_dedup_bounded (samples : List ℚ) (duration : ℚ)
    (transcript : Option (List Char)) (out : List ℚ)
    (h : analyze_for_clips samples duration transcript = .ok out) :
    out.length ≤ 5 ∧ out.Sorted (· < ·) ∧ out.Nodup ∧
    out = (all_times_of samples duration transcript).take 5 := by
  have he := analyze_ok h
  have hs : out.Sorted (· < ·) := by
    rw [he]
    exact (all_times_of_sorted samples duration transcript).sublist
      (List.take_sublist 5 _)
  refine ⟨?_, hs, hs.nodup, he⟩
  rw [he]
  exact List.length_take_le 5 _

/-- Witness for C4 at samples `[1]`, duration 10, no transcript. -/
theorem c4_witness :
    ([] : List ℚ).length ≤ 5 ∧ ([] : List ℚ).Sorted (· < ·) ∧ ([] : List ℚ).Nodup ∧
    ([] : List ℚ) = (all_times_of [1] 10 none).take 5 :=
  c4_output_sorted_dedup_bounded [1] 10 none [] (by
    norm_num [analyze_for_clips, all_times_of, select_clip_starts, sortedDedup,
      insertSD, peaksOf, avg_volume, volumesOf, pyAbs, List.enum, List.filter])

/-- C5 counterexample: the detector can return an offset at or beyond the
source's end (here the raw sample index 51 with duration 151/44100 s), and for
such an offset the renderer's window has `end ≤ start`, contradicting the
claim that `end > duration` or `end ≤ start` never happens. -/
theorem c5_counterexample :
    analyze_for_clips c1_samples (151 / 44100) none = .ok [51] ∧
    clip_end 51 (151 / 44100) ≤ 51 := by
  constructor
  · norm_num [c1_samples, analyze_for_clips, all_times_of, select_clip_starts, sortedDedup,
      insertSD, peaksOf, avg_volume, volumesOf, pyAbs, List.replicate, List.enum,
      List.enumFrom, List.filter]
  · rw [clip_end]
    have h1 : (151 : ℚ) / 44100 ≤ 51 := by norm_num
    exact le_trans (min_le_right _ _) h1

/-- C5 (amended): for every offset `start` and every `duration`, the clip end
is `end = min(start + 30, duration)`, so unconditionally `end ≤ duration` and
`end - start ≤ 30`; whenever the offset actually lies inside the source
(`0 ≤ start < duration`) the window `[start, end)` lies within `[0, duration]`
with `end > start`; and whenever `start ≥ duration` the code has no guard and
produces `end ≤ start`. -/
theorem c5_clip_end_bounds (start duration : ℚ) :
    clip_end start duration = min (start + 30) duration ∧
    clip_end start duration ≤ duration ∧
    clip_end start duration - start ≤ 30 ∧
    ((0 ≤ start ∧ start < duration) →
      0 ≤ start ∧ start < clip_end start duration ∧ clip_end start duration ≤ duration) ∧
    (duration ≤ start → clip_end start duration ≤ start) := by
  refine ⟨rfl, min_le_right _ _, ?_, ?_, ?_⟩
  · have h2 : clip_end start duration ≤ start + 30 := min_le_left _ _
    linarith
  · rintro ⟨h0, h1⟩
    exact ⟨h0, lt_min (by linarith) h1, min_le_right _ _⟩
  · intro hge
    exact le_trans (min_le_right _ _) hge

/-- Witness for C5 (amended), discharging the in-range clause at `start = 15`,
`duration = 20` and the beyond-the-end clause at `start = 25`, `duration = 20`. -/
theorem c5_witness :
    ((0 : ℚ) ≤ 15 ∧ (15 : ℚ) < clip_end 15 20 ∧ clip_end 15 20 ≤ 20) ∧
    clip_end 25 20 ≤ 25 :=
  ⟨(c5_clip_end_bounds 15 20).2.2.2.1 ⟨by norm_num, by norm_num⟩,
    (c5_clip_end_bounds 25 20).2.2.2.2 (by norm_num)⟩

/-- C6: the claim says the renderer fails with `InvalidOffsetError` when
`start ≥ duration` (e.g. `start = 25`, `duration = 20`).  The code has no such
check and no such error class: it computes `end = min(25 + 30, 20) = 20` and
proceeds to cut the window `(25, 20)`, a negative-length clip spec. -/
theorem c6_no_invalid_offset_guard :
    clip_specs 20 [25] = [(25, 20)] ∧ (20 : ℚ) ≤ 25 := by
  constructor
  · simp only [clip_specs, clip_end, List.map_cons, List.map_nil]
    norm_num
  · norm_num

/-- C7 counterexample: on the scenario transcript with duration 36 and no
audio peaks, the detector does not return `[8, 27]`. -/
theorem c7_counterexample :
    analyze_for_clips [1] 36 (some c7_subs) ≠ .ok [8, 27] := by
  have h : analyze_for_clips [1] 36 (some c7_subs) = .ok [96 / 11, 300 / 11] := by
    simp +decide [c7_subs, analyze_for_clips, all_times_of, select_clip_starts, sortedDedup,
      insertSD, peaksOf, avg_volume, volumesOf, pyAbs, List.enum, List.filter,
      engaging_times, engaging_keywords, findMatches, matchesAt, lowerEq, String.data]
    norm_num [sortedDedup, insertSD]
  rw [h]
  simp only [ne_eq, Except.ok.injEq, List.cons.injEq, and_true]
  norm_num

/-- C7 (amended): the scenario transcript has length 33 (not 36); "amazing"
matches at character 8 giving `8/33 × 36 = 96/11 ≈ 8.73`, "shocking" at
character 25 giving `25/33 × 36 = 300/11 ≈ 27.27`, each offset being
(match position) / (transcript length) × duration; with no audio peaks the
detector returns the merged sorted sequence `[96/11, 300/11]`. -/
theorem c7_keyword_offsets :
    c7_subs.length = 33 ∧
    findMatches "amazing".data c7_subs 0 = [8] ∧
    findMatches "shocking".data c7_subs 0 = [25] ∧
    engaging_times c7_subs 36 = [96 / 11, 300 / 11] ∧
    analyze_for_clips [1] 36 (some c7_subs) = .ok [96 / 11, 300 / 11] := by
  refine ⟨by decide, by simp +decide [findMatches, matchesAt, lowerEq, c7_subs, String.data],
    by simp +decide [findMatches, matchesAt, lowerEq, c7_subs, String.data], ?_, ?_⟩
  · simp +decide [c7_subs, engaging_times, engaging_keywords, findMatches, matchesAt,
      lowerEq, String.data]
    norm_num
  · simp +decide [c7_subs, analyze_for_clips, all_times_of, select_clip_starts, sortedDedup,
      insertSD, peaksOf, avg_volume, volumesOf, pyAbs, List.enum, List.filter,
      engaging_times, engaging_keywords, findMatches, matchesAt, lowerEq, String.data]
    norm_num [sortedDedup, insertSD]

/-- C8: the claim says every clip file path returned by
`generate_short_clips` still exists on disk when the function returns, deletion
happening only when the caller's temporary-storage scope ends.  The code opens
`tempfile.TemporaryDirectory()` inside `generate_short_clips` itself and
returns from within the `with` block, so the directory tree — including every
rendered clip — is deleted as the function returns: with one offset, the
returned path `short_1.mp4` no longer exists after the return. -/
theorem c8_returned_paths_deleted :
    (generate_short_clips 0 [] [0]).returned = [ClipPath.mk 0 1] ∧
    ClipPath.mk 0 1 ∉ (generate_short_clips 0 [] [0]).existingAfter := by
  constructor
  · decide
  · decide

/-- C9: when fewer than 100 samples qualify as peaks, the throttling slice
`peaks[:len(peaks)//100]` keeps `floor(len(peaks)/100) = 0` entries, so the
peak contribution is empty; consequently, whenever the detector returns at
all with no transcript supplied, it returns the empty sequence. -/
theorem c9_few_peaks_give_empty_output (samples : List ℚ) (duration : ℚ)
    (out : List ℚ)
    (h : analyze_for_clips samples duration none = .ok out)
    (hp : (peaksOf (volumesOf samples)).length < 100) :
    (peaksOf (volumesOf samples)).take ((peaksOf (volumesOf samples)).length / 100) = [] ∧
    out = [] := by
  have h0 : (peaksOf (volumesOf samples)).length / 100 = 0 := Nat.div_eq_of_lt hp
  have ht : (peaksOf (volumesOf samples)).take
      ((peaksOf (volumesOf samples)).length / 100) = [] := by
    rw [h0, List.take_zero]
  refine ⟨ht, ?_⟩
  have he := analyze_ok h
  rw [he]
  simp [all_times_of, ht, sortedDedup]

/-- Witness for C9 at samples `[1]`, duration 3. -/
theorem c9_witness :
    (peaksOf (volumesOf [1])).take ((peaksOf (volumesOf [1])).length / 100) = [] ∧
    ([] : List ℚ) = [] :=
  c9_few_peaks_give_empty_output [1] 3 []
    (by norm_num [analyze_for_clips, all_times_of, select_clip_starts, sortedDedup,
      insertSD, peaksOf, avg_volume, volumesOf, pyAbs, List.enum, List.filter])
    (by norm_num [peaksOf, avg_volume, volumesOf, pyAbs, List.enum, List.filter])

/-- C10: the selection expression of line 45,
`all_times[:5] if len(all_times) >= 5 else all_times`, is the same function as
the unconditional slice `all_times[:5]`. -/
theorem c10_select_equals_take_five (l : List ℚ) :
    select_clip_starts l = take_five l :=
  (select_clip_starts_eq_take l).trans rfl

/-- Witness for C10 at a 6-element list. -/
theorem c10_witness :
    select_clip_starts [1, 2, 3, 4, 5, 6] = take_five [1, 2, 3, 4, 5, 6] :=
  c10_select_equals_take_five [1, 2, 3, 4, 5, 6]
